import Mathlib

/-!
Shallow embedding of `src/main.rs`, a small CORS proxy in Rust (axum + reqwest
+ moka), and proofs about its request-handling pipeline.

Modelling conventions:
* Rust `&str` values are Lean `String`s.  The strings the program compares are
  ASCII, where Rust's byte-wise operations and Lean's char-wise operations
  agree.
* A raw HTTP header value (Rust `HeaderValue`) is a list of bytes; we represent
  each byte as a `Char` whose codepoint is the byte value, so `List Char`.
  `HeaderValue::to_str` succeeds exactly on visible-ASCII bytes, in which case
  the resulting `&str` has exactly those bytes as its characters.
* Response bodies (`bytes::Bytes`) are `List Nat`.
* The moka cache is an association list; `insert` prepends (moka replaces the
  entry for an existing key, and `List.lookup` returns the newest entry first,
  so lookups agree).  TTL expiry and capacity eviction are not timed here: an
  expired or evicted entry is simply one that is absent from the list.
* The one suspending effect, the upstream fetch, is an oracle argument
  (`UpstreamResult`) describing what `client.send()` / `response.bytes()`
  would produce for this request.
-/

namespace CorsProxy

/-- Rust `str::strip_prefix`: `some` of the remainder when `p` is a prefix of
`s`, else `none`. -/
def strip_prefix (s p : String) : Option String :=
  if s.data.take p.data.length = p.data then some ⟨s.data.drop p.data.length⟩
  else none

/-- Rust `str::ends_with`: byte-suffix test (char-suffix on our ASCII data). -/
def ends_with (s suffix : String) : Bool :=
  suffix.data.isSuffixOf s.data

/-- `is_allowed_origin` from `src/main.rs` lines 64-82: literal match on the
two apex origins, otherwise a scheme strip followed by a `.prigoana.com`
suffix check, once for `https://` and once for `http://`. -/
def is_allowed_origin (origin : String) : Bool :=
  if origin == "https://prigoana.com" || origin == "http://prigoana.com" then
    true
  else if (match strip_prefix origin "https://" with
           | some domain => ends_with domain ".prigoana.com"
           | none => false) then
    true
  else if (match strip_prefix origin "http://" with
           | some domain => ends_with domain ".prigoana.com"
           | none => false) then
    true
  else
    false

/-- A raw header value: a byte string, one `Char` (codepoint < 256) per byte. -/
abbrev HeaderBytes := List Char

/-- The byte class accepted by `http::HeaderValue::to_str`: visible ASCII
(32..126) or horizontal tab. -/
def visible_ascii (c : Char) : Bool :=
  (32 ≤ c.toNat && c.toNat < 127) || c.toNat == 9

/-- `HeaderValue::to_str().ok()`: succeeds iff every byte is visible ASCII,
yielding the string with exactly those bytes. -/
def header_to_str (v : HeaderBytes) : Option String :=
  if v.all visible_ascii then some ⟨v⟩ else none

/-- The byte class accepted by `HeaderValue::from_str` (on a `&str`, checked
byte-wise; multi-byte UTF-8 encodings consist of bytes ≥ 128, all legal). -/
def header_value_ok (s : String) : Bool :=
  s.data.all fun c =>
    128 ≤ c.toNat || (32 ≤ c.toNat && c.toNat != 127) || c.toNat == 9

/-- An emitted HTTP response: status, headers in insertion order, body bytes. -/
structure Response where
  status : Nat
  headers : List (String × String)
  body : List Nat
  deriving DecidableEq, Repr

/-- Look a header up by name. -/
def getHeader (r : Response) (name : String) : Option String :=
  r.headers.lookup name

/-- The moka cache, as the association list of its live entries. -/
abbrev Cache := List (String × List Nat)

/-- `cache.get(&key)`. -/
def cache_get (c : Cache) (k : String) : Option (List Nat) :=
  c.lookup k

/-- `cache.insert(key, body)`: replaces any entry for `key`; prepending keeps
`List.lookup` agreeing with moka (newest entry wins). -/
def cache_insert (c : Cache) (k : String) (v : List Nat) : Cache :=
  (k, v) :: c

/-- The outbound request `proxy_handler` builds on a cache miss: URL plus the
two headers it sets. -/
structure UpstreamRequest where
  url : String
  user_agent : String
  authorization : String
  deriving DecidableEq, Repr

/-- Oracle for the upstream fetch: `client.send()` fails, `response.bytes()`
fails, or a complete body arrives. -/
inductive UpstreamResult where
  | sendFailure
  | readFailure
  | ok (body : List Nat)
  deriving DecidableEq, Repr

/-- The cache key of `proxy_handler`: `format!("{}?{}", path, q)` when a raw
query is present, else the path alone. -/
def fingerprint (path : String) (query : Option String) : String :=
  match query with
  | some q => path ++ "?" ++ q
  | none => path

/-- The upstream URL of `proxy_handler`:
`format!("https://api.github.com/repos/{}?{}", path, q)` or the query-less
variant. -/
def upstream_url (path : String) (query : Option String) : String :=
  match query with
  | some q => "https://api.github.com/repos/" ++ path ++ "?" ++ q
  | none => "https://api.github.com/repos/" ++ path

/-- `error_response` from `src/main.rs` lines 174-181: the given status, the
single header `access-control-allow-origin: *`, empty body. -/
def error_response (status : Nat) : Response :=
  { status := status
  , headers := [("access-control-allow-origin", "*")]
  , body := [] }

/-- `cors_response` from `src/main.rs` lines 151-171: decode the inbound
`origin` header (falling back to `"*"`), re-validate it as a header value
(falling back to `"*"`), and emit 200 with the three fixed headers and the
body. -/
def cors_response (body : List Nat) (originHeader : Option HeaderBytes) :
    Response :=
  let origin := (originHeader.bind header_to_str).getD "*"
  let acao := if header_value_ok origin then origin else "*"
  { status := 200
  , headers := [("access-control-allow-origin", acao),
                ("content-type", "application/json"),
                ("cache-control", "public, max-age=10")]
  , body := body }

/-- `preflight` from `src/main.rs` lines 124-148: decode the inbound `origin`
header (falling back to `"*"`), re-validate it, and emit 200 with the four
preflight headers and no body. -/
def preflight (originHeader : Option HeaderBytes) : Response :=
  let origin := (originHeader.bind header_to_str).getD "*"
  let acao := if header_value_ok origin then origin else "*"
  { status := 200
  , headers := [("access-control-allow-origin", acao),
                ("access-control-allow-methods", "GET, OPTIONS"),
                ("access-control-allow-headers", "*"),
                ("access-control-max-age", "3600")]
  , body := [] }

/-- What one request does end to end: the response, the cache afterwards, and
the upstream request issued, if any. -/
structure HandlerResult where
  response : Response
  cacheAfter : Cache
  upstreamCall : Option UpstreamRequest
  deriving DecidableEq, Repr

/-- `proxy_handler` from `src/main.rs` lines 85-122: compute the cache key,
serve a hit from the cache, otherwise issue the upstream GET with the
`User-Agent` and `Authorization` headers, map send failure to 502 and body
read failure to 500 (inserting nothing), and on success insert the body and
emit it through `cors_response`. -/
def proxy_handler (path : String) (query : Option String)
    (originHeader : Option HeaderBytes) (cache : Cache)
    (github_token : String) (upstream : UpstreamResult) : HandlerResult :=
  let cache_key := fingerprint path query
  match cache_get cache cache_key with
  | some cached =>
    { response := cors_response cached originHeader
    , cacheAfter := cache
    , upstreamCall := none }
  | none =>
    let req : UpstreamRequest :=
      { url := upstream_url path query
      , user_agent := "rust-cors-proxy/1.0"
      , authorization := "Bearer " ++ github_token }
    match upstream with
    | .sendFailure =>
      { response := error_response 502, cacheAfter := cache
      , upstreamCall := some req }
    | .readFailure =>
      { response := error_response 500, cacheAfter := cache
      , upstreamCall := some req }
    | .ok body =>
      { response := cors_response body originHeader
      , cacheAfter := cache_insert cache cache_key body
      , upstreamCall := some req }

/-- The two methods the router maps: `get(proxy_handler).options(preflight)`. -/
inductive Method where
  | GET
  | OPTIONS
  deriving DecidableEq, Repr

/-- The routed handler behind the middleware. -/
def dispatch (method : Method) (path : String) (query : Option String)
    (originHeader : Option HeaderBytes) (cache : Cache)
    (github_token : String) (upstream : UpstreamResult) : HandlerResult :=
  match method with
  | .GET => proxy_handler path query originHeader cache github_token upstream
  | .OPTIONS =>
    { response := preflight originHeader, cacheAfter := cache
    , upstreamCall := none }

/-- `cors_middleware` (lines 48-61) composed with the router: the middleware
decodes the `origin` header; when it decodes and `is_allowed_origin` rejects
it, the request is answered 403 without reaching any handler; otherwise the
routed handler runs.  The middleware layer wraps the whole router, OPTIONS
routes included. -/
def handle_request (method : Method) (path : String) (query : Option String)
    (originHeader : Option HeaderBytes) (cache : Cache)
    (github_token : String) (upstream : UpstreamResult) : HandlerResult :=
  match originHeader.bind header_to_str with
  | some origin =>
    if ! is_allowed_origin origin then
      { response := error_response 403, cacheAfter := cache
      , upstreamCall := none }
    else
      dispatch method path query originHeader cache github_token upstream
  | none => dispatch method path query originHeader cache github_token upstream

/-- The middleware's admission test, as a predicate: an absent or undecodable
`origin` header is admitted, a decodable one is admitted iff
`is_allowed_origin` accepts it. -/
def originAdmitted (originHeader : Option HeaderBytes) : Bool :=
  match originHeader.bind header_to_str with
  | some origin => is_allowed_origin origin
  | none => true

/-! ### Helper lemmas -/

theorem strip_prefix_eq_some {s p r : String} :
    strip_prefix s p = some r ↔ s = p ++ r := by
  unfold strip_prefix
  split
  case isTrue h =>
    constructor
    · intro hr
      injection hr with hr
      subst hr
      apply String.ext
      rw [String.data_append]
      conv_lhs => rw [← List.take_append_drop p.data.length s.data]
      rw [h]
    · intro he
      subst he
      congr 1
      apply String.ext
      show ((p ++ r).data.drop p.data.length) = r.data
      rw [String.data_append, List.drop_left]
  case isFalse h =>
    constructor
    · intro hr; cases hr
    · intro he
      subst he
      exact absurd (by rw [String.data_append, List.take_left]) h

theorem scheme_check_iff (s p : String) :
    (match strip_prefix s p with
     | some domain => ends_with domain ".prigoana.com"
     | none => false) = true ↔
      ∃ r, s = p ++ r ∧ ends_with r ".prigoana.com" = true := by
  rcases h : strip_prefix s p with _ | d
  · simp only [Bool.false_eq_true, false_iff, not_exists]
    rintro r ⟨hr, hrr⟩
    rw [strip_prefix_eq_some.mpr hr] at h
    cases h
  · simp only
    constructor
    · intro hd
      exact ⟨d, strip_prefix_eq_some.mp h, hd⟩
    · rintro ⟨r, hr, hrr⟩
      rw [strip_prefix_eq_some.mpr hr] at h
      injection h with h
      rw [← h]
      exact hrr

theorem is_allowed_origin_eq (s : String) :
    is_allowed_origin s =
      (s == "https://prigoana.com" || s == "http://prigoana.com" ||
       (match strip_prefix s "https://" with
        | some domain => ends_with domain ".prigoana.com"
        | none => false) ||
       (match strip_prefix s "http://" with
        | some domain => ends_with domain ".prigoana.com"
        | none => false)) := by
  unfold is_allowed_origin
  cases hb : (s == "https://prigoana.com" || s == "http://prigoana.com") <;>
    cases h1 : (match strip_prefix s "https://" with
                | some domain => ends_with domain ".prigoana.com"
                | none => false) <;>
    cases h2 : (match strip_prefix s "http://" with
                | some domain => ends_with domain ".prigoana.com"
                | none => false) <;>
    simp [hb, h1, h2]

theorem header_to_str_valid {v : HeaderBytes} {o : String}
    (h : header_to_str v = some o) : header_value_ok o = true := by
  unfold header_to_str at h
  split at h
  case isTrue hall =>
    injection h with h
    subst h
    unfold header_value_ok
    have hv : (⟨v⟩ : String).data = v := rfl
    rw [hv]
    simp only [List.all_eq_true] at hall ⊢
    intro c hc
    have hb := hall c hc
    unfold visible_ascii at hb
    simp only [Bool.or_eq_true, Bool.and_eq_true, decide_eq_true_eq,
      beq_iff_eq, bne_iff_ne, ne_eq] at hb ⊢
    omega
  case isFalse _ => cases h

theorem echo_valid (oh : Option HeaderBytes) :
    header_value_ok ((oh.bind header_to_str).getD "*") = true := by
  rcases oh with _ | v
  · decide
  · show header_value_ok ((header_to_str v).getD "*") = true
    rcases h : header_to_str v with _ | o
    · decide
    · exact header_to_str_valid h

theorem cors_response_eq (body : List Nat) (oh : Option HeaderBytes) :
    cors_response body oh =
      { status := 200
      , headers := [("access-control-allow-origin",
                     (oh.bind header_to_str).getD "*"),
                    ("content-type", "application/json"),
                    ("cache-control", "public, max-age=10")]
      , body := body } := by
  unfold cors_response
  simp only [echo_valid oh, if_true]

theorem preflight_eq (oh : Option HeaderBytes) :
    preflight oh =
      { status := 200
      , headers := [("access-control-allow-origin",
                     (oh.bind header_to_str).getD "*"),
                    ("access-control-allow-methods", "GET, OPTIONS"),
                    ("access-control-allow-headers", "*"),
                    ("access-control-max-age", "3600")]
      , body := [] } := by
  unfold preflight
  simp only [echo_valid oh, if_true]

theorem getHeader_cors (body : List Nat) (oh : Option HeaderBytes) :
    getHeader (cors_response body oh) "access-control-allow-origin" =
      some ((oh.bind header_to_str).getD "*") := by
  rw [cors_response_eq]
  unfold getHeader
  simp [List.lookup]

theorem getHeader_preflight (oh : Option HeaderBytes) :
    getHeader (preflight oh) "access-control-allow-origin" =
      some ((oh.bind header_to_str).getD "*") := by
  rw [preflight_eq]
  unfold getHeader
  simp [List.lookup]

theorem handle_request_admitted {oh : Option HeaderBytes}
    (hadm : originAdmitted oh = true) (m : Method) (path : String)
    (query : Option String) (cache : Cache) (github_token : String)
    (upstream : UpstreamResult) :
    handle_request m path query oh cache github_token upstream =
      dispatch m path query oh cache github_token upstream := by
  unfold originAdmitted at hadm
  unfold handle_request
  rcases h : oh.bind header_to_str with _ | o
  · simp [h]
  · rw [h] at hadm
    have hadm2 : is_allowed_origin o = true := hadm
    simp [h, hadm2]

theorem handle_request_rejected {oh : Option HeaderBytes} {o : String}
    (h : oh.bind header_to_str = some o)
    (hrej : is_allowed_origin o = false) (m : Method) (path : String)
    (query : Option String) (cache : Cache) (github_token : String)
    (upstream : UpstreamResult) :
    handle_request m path query oh cache github_token upstream =
      { response := error_response 403, cacheAfter := cache
      , upstreamCall := none } := by
  unfold handle_request
  simp [h, hrej]

theorem is_allowed_origin_iff (s : String) :
    is_allowed_origin s = true ↔
      s = "https://prigoana.com" ∨ s = "http://prigoana.com" ∨
      (∃ r, s = "https://" ++ r ∧ ends_with r ".prigoana.com" = true) ∨
      (∃ r, s = "http://" ++ r ∧ ends_with r ".prigoana.com" = true) := by
  rw [is_allowed_origin_eq]
  simp only [Bool.or_eq_true, beq_iff_eq, scheme_check_iff, or_assoc]

/-! ### C1 -/

/-- C1: `is_allowed_origin` accepts an origin string `s` iff `s` is literally
`https://prigoana.com`, or literally `http://prigoana.com`, or `s` begins
with `https://` or `http://` and the remainder after that scheme prefix ends
with the suffix `.prigoana.com`; every other string (in particular
`https://evilprigoana.com`) is rejected. -/
theorem is_allowed_origin_spec :
    (∀ s : String, is_allowed_origin s = true ↔
      s = "https://prigoana.com" ∨ s = "http://prigoana.com" ∨
      (∃ r, s = "https://" ++ r ∧ ends_with r ".prigoana.com" = true) ∨
      (∃ r, s = "http://" ++ r ∧ ends_with r ".prigoana.com" = true)) ∧
    is_allowed_origin "https://evilprigoana.com" = false :=
  ⟨fun s => is_allowed_origin_iff s, by decide⟩

/-! ### C2 -/

/-- C2: a GET request whose `origin` header is present and decodes to a
string the Origin Policy rejects is answered with status 403, empty body and
the single header `access-control-allow-origin: *`; no upstream request is
issued and the cache is unchanged. -/
theorem rejected_origin_get_403 (path : String) (query : Option String)
    (v : HeaderBytes) (cache : Cache) (github_token : String)
    (upstream : UpstreamResult) (o : String)
    (hdec : header_to_str v = some o)
    (hrej : is_allowed_origin o = false) :
    handle_request .GET path query (some v) cache github_token upstream =
      { response := { status := 403
                    , headers := [("access-control-allow-origin", "*")]
                    , body := [] }
      , cacheAfter := cache
      , upstreamCall := none } := by
  rw [handle_request_rejected
    (show (some v).bind header_to_str = some o from hdec) hrej]
  rfl

theorem rejected_origin_get_403_witness :
    header_to_str "https://evil.com".data = some "https://evil.com" ∧
    is_allowed_origin "https://evil.com" = false ∧
    handle_request .GET "x/y" none (some "https://evil.com".data) [] "tok"
        .sendFailure =
      { response := { status := 403
                    , headers := [("access-control-allow-origin", "*")]
                    , body := [] }
      , cacheAfter := []
      , upstreamCall := none } :=
  ⟨by decide, by decide,
   rejected_origin_get_403 "x/y" none "https://evil.com".data [] "tok"
     .sendFailure "https://evil.com" (by decide) (by decide)⟩

/-! ### C3 -/

/-- C3: a GET request that passes the origin check and does not end in an
upstream failure (a cache hit, or a miss whose fetch succeeds) is answered
with status 200 and exactly the headers `access-control-allow-origin` (the
decoded inbound origin when present and decodable, else `*`),
`content-type: application/json` and `cache-control: public, max-age=10`;
on a miss the successfully fetched body, whatever the upstream status
produced, is returned as-is. -/
theorem admitted_success_response (path : String) (query : Option String)
    (oh : Option HeaderBytes) (cache : Cache) (github_token : String)
    (upstream : UpstreamResult)
    (hadm : originAdmitted oh = true)
    (hok : (∃ b, cache_get cache (fingerprint path query) = some b) ∨
           (∃ b, upstream = .ok b)) :
    ((handle_request .GET path query oh cache github_token
        upstream).response.status = 200 ∧
     (handle_request .GET path query oh cache github_token
        upstream).response.headers =
       [("access-control-allow-origin", (oh.bind header_to_str).getD "*"),
        ("content-type", "application/json"),
        ("cache-control", "public, max-age=10")]) ∧
    (∀ b, cache_get cache (fingerprint path query) = none →
      upstream = .ok b →
      (handle_request .GET path query oh cache github_token
        upstream).response.body = b) := by
  rw [handle_request_admitted hadm]
  unfold dispatch proxy_handler
  rcases hc : cache_get cache (fingerprint path query) with _ | cb
  · rcases hok with ⟨b, hb⟩ | ⟨b, rfl⟩
    · rw [hc] at hb; cases hb
    · simp [hc, cors_response_eq]
  · simp [hc, cors_response_eq]

theorem admitted_success_response_witness :
    originAdmitted (some "https://app.prigoana.com".data) = true ∧
    (((handle_request .GET "octocat/Hello-World" none
        (some "https://app.prigoana.com".data) [] "tok"
        (.ok [123])).response.status = 200 ∧
      (handle_request .GET "octocat/Hello-World" none
        (some "https://app.prigoana.com".data) [] "tok"
        (.ok [123])).response.headers =
        [("access-control-allow-origin", "https://app.prigoana.com"),
         ("content-type", "application/json"),
         ("cache-control", "public, max-age=10")]) ∧
     (handle_request .GET "octocat/Hello-World" none
        (some "https://app.prigoana.com".data) [] "tok"
        (.ok [123])).response.body = [123]) := by
  refine ⟨by decide, ?_⟩
  have h := admitted_success_response "octocat/Hello-World" none
    (some "https://app.prigoana.com".data) [] "tok" (.ok [123])
    (by decide) (Or.inr ⟨[123], rfl⟩)
  exact ⟨by simpa using h.1, h.2 [123] (by decide) rfl⟩

/-! ### C5 -/

/-- C5: on an admitted GET request that misses the cache, an upstream
send/connect failure yields status 502 and a body read failure yields status
500, both with empty body and `access-control-allow-origin: *`, and in both
cases the cache is left unchanged. -/
theorem upstream_failure_responses (path : String) (query : Option String)
    (oh : Option HeaderBytes) (cache : Cache) (github_token : String)
    (hadm : originAdmitted oh = true)
    (hmiss : cache_get cache (fingerprint path query) = none) :
    handle_request .GET path query oh cache github_token .sendFailure =
      { response := { status := 502
                    , headers := [("access-control-allow-origin", "*")]
                    , body := [] }
      , cacheAfter := cache
      , upstreamCall := some { url := upstream_url path query
                             , user_agent := "rust-cors-proxy/1.0"
                             , authorization :=
                                 "Bearer " ++ github_token } } ∧
    handle_request .GET path query oh cache github_token .readFailure =
      { response := { status := 500
                    , headers := [("access-control-allow-origin", "*")]
                    , body := [] }
      , cacheAfter := cache
      , upstreamCall := some { url := upstream_url path query
                             , user_agent := "rust-cors-proxy/1.0"
                             , authorization :=
                                 "Bearer " ++ github_token } } := by
  constructor
  · rw [handle_request_admitted hadm]
    unfold dispatch proxy_handler
    simp [hmiss, error_response]
  · rw [handle_request_admitted hadm]
    unfold dispatch proxy_handler
    simp [hmiss, error_response]

theorem upstream_failure_responses_witness :
    originAdmitted none = true ∧
    cache_get [] (fingerprint "x/y" none) = none ∧
    (handle_request .GET "x/y" none none [] "tok" .sendFailure =
      { response := { status := 502
                    , headers := [("access-control-allow-origin", "*")]
                    , body := [] }
      , cacheAfter := []
      , upstreamCall := some { url := upstream_url "x/y" none
                             , user_agent := "rust-cors-proxy/1.0"
                             , authorization := "Bearer " ++ "tok" } } ∧
     handle_request .GET "x/y" none none [] "tok" .readFailure =
      { response := { status := 500
                    , headers := [("access-control-allow-origin", "*")]
                    , body := [] }
      , cacheAfter := []
      , upstreamCall := some { url := upstream_url "x/y" none
                             , user_agent := "rust-cors-proxy/1.0"
                             , authorization := "Bearer " ++ "tok" } }) :=
  ⟨by decide, by decide,
   upstream_failure_responses "x/y" none none [] "tok" (by decide)
     (by decide)⟩

/-! ### C7 -/

theorem cache_get_insert (c : Cache) (k : String) (v : List Nat) :
    cache_get (cache_insert c k v) k = some v := by
  unfold cache_get cache_insert
  rw [List.lookup_cons_self]

/-- C7: when an admitted GET misses the cache and the upstream body `b`
arrives, exactly `b` is inserted under the fingerprint and exactly `b` is
returned to the client; a later request with the same fingerprint and the
same origin header served from that cache state receives a response equal in
status, headers and body to the miss response. -/
theorem hit_equals_miss (path : String) (query : Option String)
    (oh : Option HeaderBytes) (cache : Cache) (github_token : String)
    (b : List Nat)
    (hadm : originAdmitted oh = true)
    (hmiss : cache_get cache (fingerprint path query) = none) :
    cache_get (handle_request .GET path query oh cache github_token
        (.ok b)).cacheAfter (fingerprint path query) = some b ∧
    (handle_request .GET path query oh cache github_token
        (.ok b)).response.body = b ∧
    ∀ upstream2,
      (handle_request .GET path query oh
          (handle_request .GET path query oh cache github_token
            (.ok b)).cacheAfter
          github_token upstream2).response =
        (handle_request .GET path query oh cache github_token
          (.ok b)).response := by
  have hmain : handle_request .GET path query oh cache github_token (.ok b) =
      { response := cors_response b oh
      , cacheAfter := cache_insert cache (fingerprint path query) b
      , upstreamCall := some { url := upstream_url path query
                             , user_agent := "rust-cors-proxy/1.0"
                             , authorization := "Bearer " ++ github_token } }
      := by
    rw [handle_request_admitted hadm]
    unfold dispatch proxy_handler
    simp [hmiss]
  rw [hmain]
  refine ⟨cache_get_insert cache (fingerprint path query) b, ?_, ?_⟩
  · rw [cors_response_eq]
  · intro upstream2
    rw [handle_request_admitted hadm]
    unfold dispatch proxy_handler
    simp [cache_get_insert]

theorem hit_equals_miss_witness :
    originAdmitted none = true ∧
    cache_get [] (fingerprint "x/y" none) = none ∧
    (cache_get (handle_request .GET "x/y" none none [] "tok"
        (.ok [1, 2])).cacheAfter (fingerprint "x/y" none) = some [1, 2] ∧
     (handle_request .GET "x/y" none none [] "tok"
        (.ok [1, 2])).response.body = [1, 2] ∧
     ∀ upstream2,
       (handle_request .GET "x/y" none none
           (handle_request .GET "x/y" none none [] "tok"
             (.ok [1, 2])).cacheAfter
           "tok" upstream2).response =
         (handle_request .GET "x/y" none none [] "tok"
           (.ok [1, 2])).response) :=
  ⟨by decide, by decide,
   hit_equals_miss "x/y" none none [] "tok" [1, 2] (by decide) (by decide)⟩

/-! ### C4 -/

/-- C4 counterexample: the middleware layer wraps the OPTIONS route too, so
an OPTIONS request whose origin the policy rejects is answered 403, not 200
with the preflight headers. -/
theorem options_rejected_origin_403 :
    header_to_str "https://evil.com".data = some "https://evil.com" ∧
    is_allowed_origin "https://evil.com" = false ∧
    (handle_request .OPTIONS "anything" none
        (some "https://evil.com".data) [] "tok"
        .sendFailure).response.status = 403 ∧
    ¬ (handle_request .OPTIONS "anything" none
        (some "https://evil.com".data) [] "tok"
        .sendFailure).response.status = 200 := by decide

/-- C4 (amended): an OPTIONS request whose origin header is absent,
undecodable, or admitted by the Origin Policy is answered 200 with exactly
the four preflight headers (echoing the decoded inbound origin, else `*`),
no upstream call, and an unchanged cache; an OPTIONS request with a decoded
and rejected origin is instead answered 403 by the middleware. -/
theorem options_preflight_response (path : String) (query : Option String)
    (oh : Option HeaderBytes) (cache : Cache) (github_token : String)
    (upstream : UpstreamResult)
    (hadm : originAdmitted oh = true) :
    handle_request .OPTIONS path query oh cache github_token upstream =
      { response := { status := 200
                    , headers :=
                        [("access-control-allow-origin",
                          (oh.bind header_to_str).getD "*"),
                         ("access-control-allow-methods", "GET, OPTIONS"),
                         ("access-control-allow-headers", "*"),
                         ("access-control-max-age", "3600")]
                    , body := [] }
      , cacheAfter := cache
      , upstreamCall := none } := by
  rw [handle_request_admitted hadm]
  unfold dispatch
  rw [preflight_eq]

theorem options_preflight_response_witness :
    originAdmitted (some "https://prigoana.com".data) = true ∧
    handle_request .OPTIONS "anything" none
        (some "https://prigoana.com".data) [] "tok" .sendFailure =
      { response := { status := 200
                    , headers :=
                        [("access-control-allow-origin",
                          "https://prigoana.com"),
                         ("access-control-allow-methods", "GET, OPTIONS"),
                         ("access-control-allow-headers", "*"),
                         ("access-control-max-age", "3600")]
                    , body := [] }
      , cacheAfter := []
      , upstreamCall := none } :=
  ⟨by decide,
   options_preflight_response "anything" none
     (some "https://prigoana.com".data) [] "tok" .sendFailure (by decide)⟩

/-! ### C8 -/

theorem acao_of_dispatch (m : Method) (path : String) (query : Option String)
    (oh : Option HeaderBytes) (cache : Cache) (github_token : String)
    (upstream : UpstreamResult) :
    getHeader (dispatch m path query oh cache github_token
        upstream).response "access-control-allow-origin" =
      some (if (dispatch m path query oh cache github_token
          upstream).response.status = 200
        then (oh.bind header_to_str).getD "*"
        else "*") := by
  cases m
  case GET =>
    unfold dispatch proxy_handler
    rcases hcg : cache_get cache (fingerprint path query) with _ | cb
    · cases upstream <;>
        simp [hcg, cors_response_eq, error_response, getHeader, List.lookup]
    · simp only [hcg]
      rw [cors_response_eq]
      simp [getHeader, List.lookup]
  case OPTIONS =>
    unfold dispatch
    rw [preflight_eq]
    simp [getHeader, List.lookup]

theorem acao_of_handle (m : Method) (path : String) (query : Option String)
    (oh : Option HeaderBytes) (cache : Cache) (github_token : String)
    (upstream : UpstreamResult) :
    getHeader (handle_request m path query oh cache github_token
        upstream).response "access-control-allow-origin" =
      some (if (handle_request m path query oh cache github_token
          upstream).response.status = 200
        then (oh.bind header_to_str).getD "*"
        else "*") := by
  rcases h : originAdmitted oh with _ | _
  · unfold originAdmitted at h
    rcases hb : oh.bind header_to_str with _ | o
    · rw [hb] at h; cases h
    · rw [hb] at h
      have hrej : is_allowed_origin o = false := h
      rw [handle_request_rejected hb hrej]
      simp [error_response, getHeader, List.lookup]
  · rw [handle_request_admitted h]
    exact acao_of_dispatch m path query oh cache github_token upstream

/-- C8 counterexample: a response need not echo a present and representable
inbound origin: with origin `https://prigoana.com` and an unreachable
upstream the proxy answers 502 with `access-control-allow-origin: *`. -/
theorem error_acao_not_echoed :
    header_to_str "https://prigoana.com".data =
      some "https://prigoana.com" ∧
    (handle_request .GET "x/y" none (some "https://prigoana.com".data) []
        "tok" .sendFailure).response.status = 502 ∧
    getHeader (handle_request .GET "x/y" none
        (some "https://prigoana.com".data) [] "tok"
        .sendFailure).response "access-control-allow-origin" = some "*" ∧
    "*" ≠ "https://prigoana.com" := by decide

/-- C8 (amended): every emitted response carries exactly one
`access-control-allow-origin` header; on 200 responses its value is the
decoded inbound origin when present and decodable, else `*`, while on the
error responses (403, 502 and 500) it is always `*`. -/
theorem acao_header_invariant (m : Method) (path : String)
    (query : Option String) (oh : Option HeaderBytes) (cache : Cache)
    (github_token : String) (upstream : UpstreamResult) :
    getHeader (handle_request m path query oh cache github_token
        upstream).response "access-control-allow-origin" =
      some (if (handle_request m path query oh cache github_token
          upstream).response.status = 200
        then (oh.bind header_to_str).getD "*"
        else "*") :=
  acao_of_handle m path query oh cache github_token upstream

/-! ### C10 -/

theorem dispatch_origin_congr {oh1 oh2 : Option HeaderBytes}
    (h : oh1.bind header_to_str = oh2.bind header_to_str) (m : Method)
    (path : String) (query : Option String) (cache : Cache)
    (github_token : String) (upstream : UpstreamResult) :
    dispatch m path query oh1 cache github_token upstream =
      dispatch m path query oh2 cache github_token upstream := by
  have hc : ∀ b, cors_response b oh1 = cors_response b oh2 := by
    intro b
    unfold cors_response
    rw [h]
  cases m
  case GET =>
    unfold dispatch proxy_handler
    rcases hcg : cache_get cache (fingerprint path query) with _ | cb
    · cases upstream <;> simp [hcg, hc]
    · simp [hcg, hc]
  case OPTIONS =>
    unfold dispatch preflight
    rw [h]

theorem handle_request_origin_congr {oh1 oh2 : Option HeaderBytes}
    (h : oh1.bind header_to_str = oh2.bind header_to_str) (m : Method)
    (path : String) (query : Option String) (cache : Cache)
    (github_token : String) (upstream : UpstreamResult) :
    handle_request m path query oh1 cache github_token upstream =
      handle_request m path query oh2 cache github_token upstream := by
  unfold handle_request
  rw [h]
  rcases h2 : oh2.bind header_to_str with _ | o
  · exact dispatch_origin_congr h m path query cache github_token upstream
  · by_cases ha : is_allowed_origin o <;>
      simp [ha, dispatch_origin_congr h m path query cache github_token
        upstream]

/-- C10: when the `origin` header is present but its bytes fail
`HeaderValue::to_str`, the request behaves exactly as if the header were
absent — the policy is not consulted, the handler runs — and the emitted
`access-control-allow-origin` header falls back to `*`. -/
theorem undecodable_origin_treated_absent (m : Method) (path : String)
    (query : Option String) (v : HeaderBytes) (cache : Cache)
    (github_token : String) (upstream : UpstreamResult)
    (hinv : header_to_str v = none) :
    handle_request m path query (some v) cache github_token upstream =
      handle_request m path query none cache github_token upstream ∧
    getHeader (handle_request m path query (some v) cache github_token
        upstream).response "access-control-allow-origin" = some "*" := by
  have hb : (some v).bind header_to_str =
      (none : Option HeaderBytes).bind header_to_str := hinv
  refine ⟨handle_request_origin_congr hb m path query cache github_token
    upstream, ?_⟩
  rw [acao_of_handle]
  simp [hb]

theorem undecodable_origin_treated_absent_witness :
    header_to_str [⟨200, by decide⟩] = none ∧
    (handle_request .GET "x/y" none (some [⟨200, by decide⟩]) [] "tok"
        (.ok [7]) =
      handle_request .GET "x/y" none none [] "tok" (.ok [7]) ∧
     getHeader (handle_request .GET "x/y" none (some [⟨200, by decide⟩])
        [] "tok" (.ok [7])).response "access-control-allow-origin" =
      some "*") :=
  ⟨by decide,
   undecodable_origin_treated_absent .GET "x/y" none [⟨200, by decide⟩] []
     "tok" (.ok [7]) (by decide)⟩

/-! ### C6 -/

theorem append_cons_inj {α : Type} {c : α} :
    ∀ {xs xs2 : List α} {ys ys2 : List α}, c ∉ xs → c ∉ xs2 →
      xs ++ c :: ys = xs2 ++ c :: ys2 → xs = xs2 ∧ ys = ys2 := by
  intro xs
  induction xs with
  | nil =>
    intro xs2 ys ys2 _ h2 h
    cases xs2 with
    | nil => simpa using h
    | cons a t =>
      simp only [List.nil_append, List.cons_append, List.cons.injEq] at h
      obtain ⟨hca, _⟩ := h
      subst hca
      exact absurd (List.mem_cons_self _ _) h2
  | cons a t ih =>
    intro xs2 ys ys2 h1 h2 h
    cases xs2 with
    | nil =>
      simp only [List.nil_append, List.cons_append, List.cons.injEq] at h
      obtain ⟨hac, _⟩ := h
      subst hac
      exact absurd (List.mem_cons_self _ _) h1
    | cons a2 t2 =>
      simp only [List.cons_append, List.cons.injEq] at h
      obtain ⟨rfl, h⟩ := h
      have h1t : c ∉ t := fun hm => h1 (List.mem_cons_of_mem _ hm)
      have h2t : c ∉ t2 := fun hm => h2 (List.mem_cons_of_mem _ hm)
      obtain ⟨rfl, rfl⟩ := ih h1t h2t h
      exact ⟨rfl, rfl⟩

theorem fingerprint_inj {path path2 : String} {query query2 : Option String}
    (h1 : '?' ∉ path.data) (h2 : '?' ∉ path2.data) :
    fingerprint path query = fingerprint path2 query2 ↔
      (path = path2 ∧ query = query2) := by
  constructor
  · intro h
    rcases query with _ | a <;> rcases query2 with _ | b
    · exact ⟨h, rfl⟩
    · exfalso
      apply h1
      have hd := congrArg String.data h
      simp only [fingerprint, String.data_append] at hd
      rw [hd]
      simp
    · exfalso
      apply h2
      have hd := congrArg String.data h
      simp only [fingerprint, String.data_append] at hd
      rw [← hd]
      simp
    · have hd := congrArg String.data h
      simp only [fingerprint, String.data_append,
        show ("?" : String).data = ['?'] from rfl, List.append_assoc,
        List.cons_append, List.nil_append] at hd
      obtain ⟨hp, hq⟩ := append_cons_inj h1 h2 hd
      exact ⟨String.ext hp, by rw [String.ext hq]⟩
  · rintro ⟨rfl, rfl⟩
    rfl

theorem upstream_url_eq (path : String) (query : Option String) :
    upstream_url path query =
      "https://api.github.com/repos/" ++ fingerprint path query := by
  unfold upstream_url fingerprint
  cases query
  · rfl
  · simp [String.append_assoc]

/-- C6 counterexample: two requests whose path and raw query bytes are not
byte-equal can still hit the same cache entry: a path containing a literal
question mark collides with a path-plus-query pair.  Below, the second
request is served (status 200, the cached body, no upstream call) from the
entry the first one inserted, although the two path/query pairs differ. -/
theorem fingerprint_collision :
    fingerprint "a?b" none = fingerprint "a" (some "b") ∧
    ¬ ("a?b" = "a" ∧ (none : Option String) = some "b") ∧
    (handle_request .GET "a?b" none none
        (handle_request .GET "a" (some "b") none [] "tok"
          (.ok [1])).cacheAfter "tok" .sendFailure).response.status = 200 ∧
    (handle_request .GET "a?b" none none
        (handle_request .GET "a" (some "b") none [] "tok"
          (.ok [1])).cacheAfter "tok" .sendFailure).response.body = [1] ∧
    (handle_request .GET "a?b" none none
        (handle_request .GET "a" (some "b") none [] "tok"
          (.ok [1])).cacheAfter "tok" .sendFailure).upstreamCall = none := by
  decide

/-- C6 (amended): for every admitted GET, the cache key is the request path
joined to the raw query by a literal question mark when a query is present;
on a cache miss the upstream request is a GET to exactly
`https://api.github.com/repos/` followed by that same fingerprint, carrying
the headers `User-Agent: rust-cors-proxy/1.0` and `Authorization: Bearer `
plus the credential, and a fetched body is stored under that fingerprint.
Hence two requests whose paths contain no literal question mark hit the same
cache entry iff their path and raw query bytes are byte-equal; a path
containing a question mark (such a path arises from a percent-encoded one)
can collide with a distinct path/query pair. -/
theorem cache_key_upstream_shape (path : String) (query : Option String)
    (oh : Option HeaderBytes) (cache : Cache) (github_token : String)
    (upstream : UpstreamResult)
    (hadm : originAdmitted oh = true)
    (hmiss : cache_get cache (fingerprint path query) = none) :
    (handle_request .GET path query oh cache github_token
        upstream).upstreamCall =
      some { url :=
               "https://api.github.com/repos/" ++ fingerprint path query
           , user_agent := "rust-cors-proxy/1.0"
           , authorization := "Bearer " ++ github_token } ∧
    (∀ b, upstream = .ok b →
      (handle_request .GET path query oh cache github_token
          upstream).cacheAfter =
        cache_insert cache (fingerprint path query) b) ∧
    (∀ path2 query2, '?' ∉ path.data → '?' ∉ path2.data →
      (fingerprint path query = fingerprint path2 query2 ↔
        (path = path2 ∧ query = query2))) := by
  refine ⟨?_, ?_, fun path2 query2 h1 h2 => fingerprint_inj h1 h2⟩
  · rw [handle_request_admitted hadm]
    unfold dispatch proxy_handler
    cases upstream <;> simp [hmiss, upstream_url_eq]
  · intro b hb
    subst hb
    rw [handle_request_admitted hadm]
    unfold dispatch proxy_handler
    simp [hmiss]

theorem cache_key_upstream_shape_witness :
    originAdmitted none = true ∧
    cache_get [] (fingerprint "x/y" (some "ref=main")) = none ∧
    ((handle_request .GET "x/y" (some "ref=main") none [] "tok"
        (.ok [5])).upstreamCall =
      some { url := "https://api.github.com/repos/" ++
               fingerprint "x/y" (some "ref=main")
           , user_agent := "rust-cors-proxy/1.0"
           , authorization := "Bearer " ++ "tok" } ∧
     (handle_request .GET "x/y" (some "ref=main") none [] "tok"
        (.ok [5])).cacheAfter =
       cache_insert [] (fingerprint "x/y" (some "ref=main")) [5] ∧
     (fingerprint "x/y" (some "ref=main") =
        fingerprint "x/y" (some "ref=dev") ↔
       ("x/y" = "x/y" ∧ some "ref=main" = some "ref=dev"))) := by
  refine ⟨by decide, by decide, ?_⟩
  have h := cache_key_upstream_shape "x/y" (some "ref=main") none [] "tok"
    (.ok [5]) (by decide) (by decide)
  exact ⟨h.1, h.2.1 [5] rfl, h.2.2 "x/y" (some "ref=dev") (by decide)
    (by decide)⟩

/-! ### C9 -/

theorem https_ne_http (a b : String) :
    "https://" ++ a ≠ "http://" ++ b := by
  intro h
  have hd := congrArg (fun s => s.data.take 5) h
  simp only [String.data_append] at hd
  rw [show (("https://" : String).data ++ a.data).take 5 =
        ['h', 't', 't', 'p', 's'] from rfl,
      show (("http://" : String).data ++ b.data).take 5 =
        ['h', 't', 't', 'p', ':'] from rfl] at hd
  exact absurd hd (by decide)

theorem string_append_left_cancel {a b c : String}
    (h : a ++ b = a ++ c) : b = c := by
  apply String.ext
  have hd := congrArg String.data h
  rw [String.data_append, String.data_append] at hd
  exact List.append_cancel_left hd

/-- C9 counterexample: an origin containing a `/` (a path component) after
the scheme is not always rejected: the compared portion is everything after
the scheme, so a path ending in `.prigoana.com` passes the suffix test. -/
theorem slash_origin_accepted :
    "https://evil.com/.prigoana.com" =
      "https://" ++ "evil.com/.prigoana.com" ∧
    '/' ∈ ("evil.com/.prigoana.com" : String).data ∧
    is_allowed_origin "https://evil.com/.prigoana.com" = true := by decide

/-- C9 (amended): port and path bytes are included in the compared host
portion, so an origin carrying them is rejected exactly when the full
remainder after the scheme fails the `.prigoana.com` suffix test: the
spec's examples `https://app.prigoana.com:8080` and
`https://app.prigoana.com/x` are rejected, and in general every `https://`
or `http://` origin whose remainder after the scheme does not end with
`.prigoana.com` and which is not a literal apex origin is rejected (while a
remainder that does end with `.prigoana.com`, even via a path component, is
accepted). -/
theorem port_path_reject :
    is_allowed_origin "https://app.prigoana.com:8080" = false ∧
    is_allowed_origin "https://app.prigoana.com/x" = false ∧
    (∀ r, ends_with r ".prigoana.com" = false →
      "https://" ++ r ≠ "https://prigoana.com" →
      is_allowed_origin ("https://" ++ r) = false) ∧
    (∀ r, ends_with r ".prigoana.com" = false →
      "http://" ++ r ≠ "http://prigoana.com" →
      is_allowed_origin ("http://" ++ r) = false) := by
  refine ⟨by decide, by decide, ?_, ?_⟩
  · intro r hend hne
    rw [Bool.eq_false_iff]
    intro hacc
    rcases (is_allowed_origin_iff _).mp hacc with h | h | ⟨r2, hr2, he2⟩ |
        ⟨r2, hr2, he2⟩
    · exact hne h
    · exact https_ne_http r "prigoana.com"
        (h.trans (by decide : "http://prigoana.com" =
          "http://" ++ "prigoana.com"))
    · rw [string_append_left_cancel hr2] at hend
      rw [hend] at he2
      cases he2
    · exact https_ne_http r r2 hr2
  · intro r hend hne
    rw [Bool.eq_false_iff]
    intro hacc
    rcases (is_allowed_origin_iff _).mp hacc with h | h | ⟨r2, hr2, he2⟩ |
        ⟨r2, hr2, he2⟩
    · exact https_ne_http "prigoana.com" r
        ((by decide : "https://prigoana.com" =
          "https://" ++ "prigoana.com").symm.trans h.symm)
    · exact hne h
    · exact https_ne_http r2 r hr2.symm
    · rw [string_append_left_cancel hr2] at hend
      rw [hend] at he2
      cases he2

end CorsProxy
